import Mathlib

/-!
Shallow embedding of `rnnvis/server/model_manager.py` (the `ModelManager`
class) and proofs about it.

The Python module orchestrates an RNN visualization backend: it lazily
loads models by logical name into a cache, drives a branching text
generator, streams sequences through an evaluator while recording hidden
state, and derives projection artifacts.

Modelling conventions:
- Python exceptions are an `Except PyError` result; since side effects
  performed before an exception persist in Python, every operation returns
  `Except PyError α × ManagerState` — the state component is meaningful
  even when the result is `.error`.
- External collaborators (`build_model`, `assert_path_exists`,
  `model.evaluate_and_record`, the statistics routines) are oracles
  collected in an `Env` record; invocations of `build_model`, `pour_data`,
  `SentenceProducer` and `evaluate_and_record` are logged in traces inside
  `ManagerState` so that claims about "how often / with which arguments a
  collaborator was called" are statable.
- `print` calls append to a `logs` trace.
- Probabilities are exact rationals `ℚ`.
-/

/-- Python exception kinds raised by the code paths modelled here. -/
inductive PyError where
  | assertionError : String → PyError
  | valueError : String → PyError
  | keyError : PyError
  | indexError : PyError
deriving DecidableEq, Repr

/-- Outcome of one `model.evaluate_and_record` streaming run (external
collaborator): it either completes, raises a `ValueError`, or raises some
other exception. -/
inductive StreamOutcome where
  | ok
  | valueError
  | otherError
deriving DecidableEq, Repr

/-- The attributes of a loaded model handle that `ModelManager` consumes:
`model.name`, the evaluator's mutable `record_every` stride,
`len(model.cell_list)` and `model.id_to_word`. -/
structure Model where
  name : String
  record_every : Nat
  cell_list_len : Nat
  id_to_word : List String
deriving DecidableEq, Repr

/-- The training configuration paired with a model by `build_model`:
the manager reads `config.dataset` and `config.num_steps`. -/
structure TrainConfig where
  dataset : String
  num_steps : Nat
deriving DecidableEq, Repr

/-- `get_path(dir, file)` from `rnnvis.utils.io_utils`, modelled as path
concatenation (the project-root prefixing is irrelevant to the claims). -/
def get_path (d f : String) : String := d ++ "/" ++ f

def config_dir : String := "config"

def data_dir : String := "cached_data"

def model_dir : String := "models"

/-- `ModelManager._available_models`: the fixed catalog mapping logical
names to config file names. -/
def available_models : List (String × String) :=
  [("PTB-LSTM", "lstm.yml"),
   ("Shakespeare", "shakespeare.yml"),
   ("IMDB", "imdb-tiny.yml"),
   ("PTB-GRU", "gru.yml")]

/-- Python `dict` lookup `d[k]` / `k in d`, on an association list. -/
def lookupS {α : Type} (k : String) : List (String × α) → Option α
  | [] => none
  | (k₂, v) :: rest => if k₂ = k then some v else lookupS k rest

/-- Python `dict` assignment `d[k] = v`: replaces the binding of `k` if
present, otherwise appends it. -/
def setS {α : Type} (k : String) (v : α) : List (String × α) → List (String × α)
  | [] => [(k, v)]
  | (k₂, v₂) :: rest => if k₂ = k then (k, v) :: rest else (k₂, v₂) :: setS k v rest

/-- The external collaborators, as oracles.  `build` is
`build_model(config_file)`; `pathExists` backs `assert_path_exists`;
`dist` is the model's next-token conditional distribution given the token
path so far (used by the spec-modelled generator); `streamOutcome` is the
outcome of an `evaluate_and_record` run on the named model; the remaining
fields back `get_id_from_word`, `get_state_signature`,
`get_empirical_strength` and the t-SNE solution's point count
(`tsne_solution.shape[0]`). -/
structure Env where
  build : String → Model × TrainConfig
  pathExists : String → Bool
  dist : String → List Nat → List (Nat × ℚ)
  streamOutcome : String → StreamOutcome
  getIdFromWord : String → List String → List Int
  stateSignature : String → String → String → List Nat → Nat → List Int
  strengthMat : String → String → String → List Nat → Nat → List (List ℚ)
  tsneShape : String → String → String → Int → Nat

/-- The mutable state of a `ModelManager` instance plus the effect traces
of its collaborator invocations.  `models` is `self._models`,
`train_configs` is `self._train_configs`; `buildTrace` records the logical
name for each `build_model` invocation; `producerTrace` records each
`SentenceProducer(sequences, batch, max_len, num_steps)` construction as
`(batch, max_len, num_steps)`; `pourTrace` records each
`pour_data(dataset, [split], batch, step, num_steps)` call as
`(dataset, split, batch, step, num_steps)`; `streamCalls` counts
`evaluate_and_record` invocations; `recorderWrites` counts write-throughs
received by a persistent `StateRecorder`; `logs` records `print` output. -/
structure ManagerState where
  models : List (String × Model)
  train_configs : List (String × TrainConfig)
  buildTrace : List String
  producerTrace : List (Nat × Nat × Nat)
  pourTrace : List (String × String × Nat × Nat × Nat)
  streamCalls : Nat
  recorderWrites : Nat
  logs : List String
deriving DecidableEq, Repr

/-- `ModelManager.__init__`: empty caches, nothing invoked yet. -/
def initState : ManagerState :=
  { models := [], train_configs := [], buildTrace := [], producerTrace := [],
    pourTrace := [], streamCalls := 0, recorderWrites := 0, logs := [] }

/-- `ModelManager.get_config_filename`. -/
def get_config_filename (name : String) : Option String :=
  match lookupS name available_models with
  | some cfg => some (get_path config_dir cfg)
  | none => none

/-- `ModelManager._load_model`.  On a catalog hit it calls `build_model`,
attaches the generator and the evaluator (`add_evaluator(1, 1, 100, True)`
sets the construction-time `record_every` stride to 100), and — when not
in training mode — asserts that the checkpoint directory exists before
restoring; only after that are the handle and its training configuration
installed, adjacently.  On a catalog miss it logs a warning and returns
`false`. -/
def load_model (env : Env) (st : ManagerState) (name : String) (train : Bool) :
    Except PyError Bool × ManagerState :=
  match lookupS name available_models with
  | some cfg =>
    let config_file := get_path config_dir cfg
    let built := env.build config_file
    let st₁ := { st with buildTrace := st.buildTrace ++ [name] }
    let model := { built.1 with record_every := 100 }
    if !train && !(env.pathExists (get_path model_dir model.name)) then
      (.error (.assertionError (get_path model_dir model.name ++ " does not exists!")), st₁)
    else
      (.ok true,
       { st₁ with models := setS name model st₁.models,
                  train_configs := setS name built.2 st₁.train_configs })
  | none =>
    (.ok false, { st with logs := st.logs ++ ["WARN: Cannot find model with name " ++ name] })

/-- `ModelManager._get_model`: cached handle if present, otherwise load;
`self._models[name] if flag else None` (the `keyError` branch mirrors
Python's `dict` access and is provably unreachable). -/
def get_model (env : Env) (st : ManagerState) (name : String) (train : Bool) :
    Except PyError (Option Model) × ManagerState :=
  match lookupS name st.models with
  | some m => (.ok (some m), st)
  | none =>
    match load_model env st name train with
    | (.error e, st₁) => (.error e, st₁)
    | (.ok flag, st₁) =>
      if flag then
        match lookupS name st₁.models with
        | some m => (.ok (some m), st₁)
        | none => (.error .keyError, st₁)
      else (.ok none, st₁)

/-- A node of the generation tree: token id, conditional probability of
the token given its path, cumulative path probability, children. -/
inductive GenNode : Type where
  | mk : Nat → ℚ → ℚ → List GenNode → GenNode

def GenNode.word : GenNode → Nat
  | .mk w _ _ _ => w

def GenNode.cond_prob : GenNode → ℚ
  | .mk _ c _ _ => c

def GenNode.cum_prob : GenNode → ℚ
  | .mk _ _ p _ => p

def GenNode.children : GenNode → List GenNode
  | .mk _ _ _ cs => cs

/-- Insert into a list of candidates kept in descending conditional
probability order. -/
def insertDesc (x : Nat × ℚ) : List (Nat × ℚ) → List (Nat × ℚ)
  | [] => [x]
  | y :: ys => if y.2 ≤ x.2 then x :: y :: ys else y :: insertDesc x ys

/-- Sort candidates by descending conditional probability. -/
def sortDesc (l : List (Nat × ℚ)) : List (Nat × ℚ) := l.foldr insertDesc []

/-- Modelled from the spec: the greedy branch selection step of
`model.generate` (the model collaborator's generator, which lives outside
`src/`).  Walks a ranked candidate list keeping a selected-branch count
and a running sum of selected conditional probabilities; stops when
`max_branch` branches are taken, when the running sum would exceed
`accum_cond_prob`, or when the next candidate's conditional probability
falls below `min_cond_prob`; a candidate whose cumulative path
probability (`parent_cum * p`) is below `min_prob` is dropped without
consuming a branch slot. -/
def select_branches (maxBranch : Nat) (accum minCond minProb parentCum : ℚ) :
    List (Nat × ℚ) → Nat → ℚ → List (Nat × ℚ)
  | [], _, _ => []
  | c :: rest, count, s =>
    if maxBranch ≤ count then []
    else if accum < s + c.2 then []
    else if c.2 < minCond then []
    else if parentCum * c.2 < minProb then
      select_branches maxBranch accum minCond minProb parentCum rest count s
    else
      c :: select_branches maxBranch accum minCond minProb parentCum rest (count + 1) (s + c.2)

/-- Modelled from the spec: the recursive expansion of `model.generate`.
At each node, query the distribution at the current token path, drop
tokens in `neg_word_ids`, rank the rest by descending conditional
probability, select branches, and recurse per branch for up to `max_step`
rounds; each child carries cumulative probability
`parent_cum * cond_prob`. -/
def gen_children (dist : List Nat → List (Nat × ℚ)) (neg : List Nat) (maxBranch : Nat)
    (accum minCond minProb : ℚ) : Nat → List Nat → ℚ → List GenNode
  | 0, _, _ => []
  | fuel + 1, toks, parentCum =>
    let cands := sortDesc ((dist toks).filter (fun c => !neg.contains c.1))
    let sel := select_branches maxBranch accum minCond minProb parentCum cands 0 0
    sel.map (fun c =>
      GenNode.mk c.1 c.2 (parentCum * c.2)
        (gen_children dist neg maxBranch accum minCond minProb fuel (toks ++ [c.1]) (parentCum * c.2)))

/-- Modelled from the spec: `model.generate(seeds, None, max_branch,
accum_cond_prob, min_cond_prob, min_prob, max_step, neg_word_ids)`.  The
seed path primes the search; the returned tree's root is the last seed
token (conditional and cumulative probability 1) and its subtree is the
probability-pruned search tree. -/
def model_generate_tree (dist : List Nat → List (Nat × ℚ)) (seeds : List Nat)
    (maxBranch : Nat) (accum minCond minProb : ℚ) (maxStep : Nat) (neg : List Nat) : GenNode :=
  GenNode.mk (seeds.getLastD 0) 1 1
    (gen_children dist neg maxBranch accum minCond minProb maxStep seeds 1)

/-- `ModelManager.model_generate`: resolve the model (returning `none` on
failure) and delegate to the generator. -/
def model_generate (env : Env) (st : ManagerState) (name : String) (seeds : List Nat)
    (maxBranch : Nat) (accum minCond minProb : ℚ) (maxStep : Nat) (neg : List Nat) :
    Except PyError (Option GenNode) × ManagerState :=
  match get_model env st name false with
  | (.error e, st₁) => (.error e, st₁)
  | (.ok none, st₁) => (.ok none, st₁)
  | (.ok (some m), st₁) =>
    (.ok (some (model_generate_tree (env.dist m.name) seeds maxBranch accum minCond minProb maxStep neg)), st₁)

/-- Python `max([len(s) for s in sequences])`: raises `ValueError` on an
empty argument, otherwise returns the maximum length. -/
def py_max_len (sequences : List (List String)) : Except PyError Nat :=
  match sequences with
  | [] => .error (.valueError "max() arg is an empty sequence")
  | s :: rest => .ok ((rest.map List.length).foldl Nat.max s.length)

/-- `ModelManager.model_record_sequence`.  Resolves the model; computes
`max_len`; constructs a `BufferRecorder(config.dataset, name, 500)` and a
`SentenceProducer(sequences, 1, max_len, num_steps=1)` (traced); sets the
evaluator stride `record_every` to `max_len` in place on the cached
handle; then streams.  A `ValueError` during streaming is caught and
logged with the "sequence length too large" diagnostic, any other
exception is caught and logged generically; both yield `none`.  On
success it returns the recorder's `(doc, record)` pairs — modelled from
the spec (the `BufferRecorder` lives outside `src/`): one pair per input
sequence, the doc being the sequence and the record opaque. -/
def record_sequence_body (env : Env) (st₁ : ManagerState) (name : String)
    (sequences : List (List String)) (m : Model) :
    Except PyError (Option (List (List String × Unit))) × ManagerState :=
  match lookupS name st₁.train_configs with
  | none => (.error .keyError, st₁)
  | some _config =>
    match py_max_len sequences with
    | .error e => (.error e, st₁)
    | .ok max_len =>
      let st₂ := { st₁ with producerTrace := st₁.producerTrace ++ [(1, max_len, 1)] }
      let st₃ := { st₂ with models := setS name { m with record_every := max_len } st₂.models }
      let st₄ := { st₃ with streamCalls := st₃.streamCalls + 1 }
      match env.streamOutcome name with
      | .ok => (.ok (some (sequences.map (fun s => (s, ())))), st₄)
      | .valueError =>
        (.ok none,
         { st₄ with logs := st₄.logs ++
            ["ERROR: Fail to evaluate given sequence! Sequence length too large!"] })
      | .otherError =>
        (.ok none,
         { st₄ with logs := st₄.logs ++
            ["ERROR: Fail to evaluate given sequence! Unknown Reason."] })

def model_record_sequence (env : Env) (st : ManagerState) (name : String)
    (sequences : List (List String)) :
    Except PyError (Option (List (List String × Unit))) × ManagerState :=
  match get_model env st name false with
  | (.error e, st₁) => (.error e, st₁)
  | (.ok none, st₁) => (.ok none, st₁)
  | (.ok (some m), st₁) => record_sequence_body env st₁ name sequences m

/-- `ModelManager.model_record_default`.  Resolves the model; asserts the
split is canonical; constructs a `StateRecorder(config.dataset,
model.name, 500)`; calls `pour_data(config.dataset, [dataset], 1, 1,
config.num_steps)` (traced); sets `record_every` to `config.num_steps` in
place; streams, returning `True` on completion and `False` on any caught
exception (the persistent recorder's write-through is counted on
completion). -/
def record_default_body (env : Env) (st₁ : ManagerState) (name dataset : String) (m : Model) :
    Except PyError (Option Bool) × ManagerState :=
  match lookupS name st₁.train_configs with
  | none => (.error .keyError, st₁)
  | some config =>
    if dataset = "test" ∨ dataset = "train" ∨ dataset = "valid" then
      let st₂ := { st₁ with pourTrace :=
        st₁.pourTrace ++ [(config.dataset, dataset, 1, 1, config.num_steps)] }
      let st₃ := { st₂ with models := setS name { m with record_every := config.num_steps } st₂.models }
      let st₄ := { st₃ with streamCalls := st₃.streamCalls + 1 }
      match env.streamOutcome name with
      | .ok => (.ok (some true), { st₄ with recorderWrites := st₄.recorderWrites + 1 })
      | _ =>
        (.ok (some false),
         { st₄ with logs := st₄.logs ++ ["ERROR: Fail to evaluate given sequence!"] })
    else
      (.error (.assertionError "dataset should be 'train', 'valid' or 'test'"), st₁)

def model_record_default (env : Env) (st : ManagerState) (name dataset : String) :
    Except PyError (Option Bool) × ManagerState :=
  match get_model env st name false with
  | (.error e, st₁) => (.error e, st₁)
  | (.ok none, st₁) => (.ok none, st₁)
  | (.ok (some m), st₁) => record_default_body env st₁ name dataset m

/-- `ModelManager.model_sentences_to_ids`: maps `get_id_from_word` over
the sentences. -/
def model_sentences_to_ids (env : Env) (st : ManagerState) (name : String)
    (sentences : List (List String)) :
    Except PyError (Option (List (List Int))) × ManagerState :=
  match get_model env st name false with
  | (.error e, st₁) => (.error e, st₁)
  | (.ok none, st₁) => (.ok none, st₁)
  | (.ok (some m), st₁) =>
    (.ok (some (sentences.map (env.getIdFromWord m.name))), st₁)

/-- `ModelManager.model_state_signature`: delegates to
`get_state_signature(data_name, model_name, state_name, layers,
sample_size)` and returns its `.tolist()` form. -/
def state_signature_body (env : Env) (st₁ : ManagerState) (name state_name : String)
    (layers : List Nat) (sample_size : Nat) (m : Model) :
    Except PyError (Option (List Int)) × ManagerState :=
  match lookupS name st₁.train_configs with
  | none => (.error .keyError, st₁)
  | some config =>
    (.ok (some (env.stateSignature config.dataset m.name state_name layers sample_size)), st₁)

def model_state_signature (env : Env) (st : ManagerState) (name state_name : String)
    (layers : List Nat) (sample_size : Nat) :
    Except PyError (Option (List Int)) × ManagerState :=
  match get_model env st name false with
  | (.error e, st₁) => (.error e, st₁)
  | (.ok none, st₁) => (.ok none, st₁)
  | (.ok (some m), st₁) => state_signature_body env st₁ name state_name layers sample_size m

/-- `ModelManager.model_strength`: the empirical strength matrix packaged
(`strength2json`) with the first `top_k` vocabulary items. -/
def strength_body (env : Env) (st₁ : ManagerState) (name state_name : String)
    (layers : List Nat) (top_k : Nat) (m : Model) :
    Except PyError (Option (List (List ℚ) × List String)) × ManagerState :=
  match lookupS name st₁.train_configs with
  | none => (.error .keyError, st₁)
  | some config =>
    (.ok (some (env.strengthMat config.dataset m.name state_name layers top_k,
                m.id_to_word.take top_k)), st₁)

def model_strength (env : Env) (st : ManagerState) (name state_name : String)
    (layers : List Nat) (top_k : Nat) :
    Except PyError (Option (List (List ℚ) × List String)) × ManagerState :=
  match get_model env st name false with
  | (.error e, st₁) => (.error e, st₁)
  | (.ok none, st₁) => (.ok none, st₁)
  | (.ok (some m), st₁) => strength_body env st₁ name state_name layers top_k m

/-- Python list item assignment `l[i] = v`: a negative index counts from
the end; an out-of-range index raises `IndexError`. -/
def py_list_set (l : List Nat) (i : Int) (v : Nat) : Except PyError (List Nat) :=
  let j : Int := if i < 0 then i + l.length else i
  if 0 ≤ j ∧ j < l.length then .ok (l.set j.toNat v) else .error .indexError

/-- The `solution2json(tsne_solution, states_num, labels)` payload of
`model_state_projection`: the per-point layer labels, the per-layer
point-count histogram, and the number of projected points. -/
structure ProjJson where
  labels : List Int
  states_num : List Nat
  points : Nat
deriving DecidableEq, Repr

/-- `ModelManager.model_state_projection`.  For method `tsne`: the labels
are `[layer_num - 1 if layer < 0 else layer]` repeated once per projected
point, and the histogram is a zero list of length `len(model.cell_list)`
with the point count assigned at Python index `layer`.  Any other method
yields `none`. -/
def state_projection_body (env : Env) (st₁ : ManagerState) (name state_name : String)
    (layer : Int) (method : String) (m : Model) :
    Except PyError (Option ProjJson) × ManagerState :=
  match lookupS name st₁.train_configs with
  | none => (.error .keyError, st₁)
  | some config =>
    let layer_num := m.cell_list_len
    if method = "tsne" then
      let n := env.tsneShape config.dataset m.name state_name layer
      let labels := List.replicate n (if layer < 0 then (layer_num : Int) - 1 else layer)
      match py_list_set (List.replicate layer_num 0) layer n with
      | .error e => (.error e, st₁)
      | .ok states_num => (.ok (some ⟨labels, states_num, n⟩), st₁)
    else (.ok none, st₁)

def model_state_projection (env : Env) (st : ManagerState) (name state_name : String)
    (layer : Int) (method : String) :
    Except PyError (Option ProjJson) × ManagerState :=
  match get_model env st name false with
  | (.error e, st₁) => (.error e, st₁)
  | (.ok none, st₁) => (.ok none, st₁)
  | (.ok (some m), st₁) => state_projection_body env st₁ name state_name layer method m

/-! ## Association-list and cache lemmas -/

theorem lookupS_setS_self {α : Type} (k : String) (v : α) (l : List (String × α)) :
    lookupS k (setS k v l) = some v := by
  induction l with
  | nil => simp [setS, lookupS]
  | cons hd tl ih =>
    by_cases h : hd.1 = k
    · simp [setS, h, lookupS]
    · simp [setS, h, lookupS, ih]

theorem lookupS_setS_other {α : Type} (k k₂ : String) (v : α) (l : List (String × α))
    (h : k₂ ≠ k) : lookupS k₂ (setS k v l) = lookupS k₂ l := by
  have hk : ¬(k = k₂) := fun hh => h hh.symm
  induction l with
  | nil => simp [setS, lookupS, hk]
  | cons hd tl ih =>
    rcases hd with ⟨k₃, v₃⟩
    by_cases hh : k₃ = k
    · subst hh
      simp [setS, lookupS, hk]
    · simp [setS, hh, lookupS, ih]

/-- `_get_model` on a name missing from the catalog and the cache: logs
the warning, reports no model, builds nothing. -/
theorem get_model_unknown (env : Env) (st : ManagerState) (name : String) (train : Bool)
    (hcat : lookupS name available_models = none)
    (hmiss : lookupS name st.models = none) :
    get_model env st name train =
      (.ok none, { st with logs := st.logs ++ ["WARN: Cannot find model with name " ++ name] }) := by
  simp [get_model, hmiss, load_model, hcat]

/-- `_get_model` on a cached name returns the cached handle and leaves
the state untouched. -/
theorem get_model_cached (env : Env) (st : ManagerState) (name : String) (train : Bool)
    (m : Model) (hhit : lookupS name st.models = some m) :
    get_model env st name train = (.ok (some m), st) := by
  simp [get_model, hhit]

/-- Whenever `_get_model` reports a model, that model is in the cache of
the resulting state. -/
theorem get_model_some_lookup (env : Env) (st : ManagerState) (name : String) (train : Bool)
    (m : Model) (st₁ : ManagerState)
    (h : get_model env st name train = (.ok (some m), st₁)) :
    lookupS name st₁.models = some m := by
  unfold get_model at h
  cases hmiss : lookupS name st.models with
  | some m₀ =>
    rw [hmiss] at h
    simp at h
    obtain ⟨hm, hst⟩ := h
    rw [← hst, hmiss, hm]
  | none =>
    rw [hmiss] at h
    cases hload : load_model env st name train with
    | mk r st₂ =>
      rw [hload] at h
      cases r with
      | error e => simp at h
      | ok flag =>
        cases flag with
        | false => simp at h
        | true =>
          simp at h
          cases hl : lookupS name st₂.models with
          | some m₂ =>
            rw [hl] at h
            simp at h
            obtain ⟨hm, hst⟩ := h
            rw [← hst, hl, hm]
          | none => rw [hl] at h; simp at h

/-! ## Concrete collaborator environment and cached states used to
instantiate the theorems -/

/-- A concrete model handle as `build_model` would hand it back (its
`record_every` is overwritten to 100 by `add_evaluator`). -/
def mW : Model :=
  { name := "lstm", record_every := 100, cell_list_len := 2,
    id_to_word := ["the", "cat", "a", "dog", "ran"] }

def tcW : TrainConfig := { dataset := "ptb", num_steps := 35 }

/-- A concrete environment: every checkpoint exists, the distribution
puts all mass on token 5, and streaming succeeds for `PTB-LSTM`, raises a
`ValueError` for `PTB-GRU` and an unknown exception for `IMDB`. -/
def envW : Env :=
  { build := fun _ => ({ mW with record_every := 0 }, tcW),
    pathExists := fun _ => true,
    dist := fun _ _ => [(5, 1)],
    streamOutcome := fun n =>
      if n = "PTB-GRU" then .valueError else if n = "IMDB" then .otherError else .ok,
    getIdFromWord := fun _ s => s.map (fun _ => (0 : Int)),
    stateSignature := fun _ _ _ _ _ => [],
    strengthMat := fun _ _ _ _ _ => [],
    tsneShape := fun _ _ _ _ => 5 }

/-- The manager state right after a successful load of `PTB-LSTM`. -/
def stLstm : ManagerState :=
  { models := [("PTB-LSTM", mW)], train_configs := [("PTB-LSTM", tcW)],
    buildTrace := ["PTB-LSTM"], producerTrace := [], pourTrace := [],
    streamCalls := 0, recorderWrites := 0, logs := [] }

/-- The manager state right after a successful load of `PTB-GRU`. -/
def stGru : ManagerState :=
  { models := [("PTB-GRU", mW)], train_configs := [("PTB-GRU", tcW)],
    buildTrace := ["PTB-GRU"], producerTrace := [], pourTrace := [],
    streamCalls := 0, recorderWrites := 0, logs := [] }

/-- Loading `PTB-LSTM` from a fresh manager in `envW` produces exactly
`stLstm`. -/
theorem get_model_envW_lstm :
    get_model envW initState "PTB-LSTM" false = (.ok (some mW), stLstm) := by
  rfl

theorem get_model_envW_stGru :
    get_model envW stGru "PTB-GRU" false = (.ok (some mW), stGru) := by
  rfl

theorem get_model_envW_stLstm :
    get_model envW stLstm "PTB-LSTM" false = (.ok (some mW), stLstm) := by
  rfl

/-! ## C1 -/

/-- C1: for every name outside the fixed catalog (and hence never in the
cache), every public operation returns `none` and performs no model load:
`get_config_filename` yields `none`, and every other operation yields
`.ok none` while leaving the `build_model` invocation trace untouched. -/
theorem c1_unknown_name_all_ops_none (env : Env) (st : ManagerState) (name : String)
    (hcat : lookupS name available_models = none)
    (hmiss : lookupS name st.models = none) :
    get_config_filename name = none ∧
    (∀ seeds maxBranch accum minCond minProb maxStep neg,
      (model_generate env st name seeds maxBranch accum minCond minProb maxStep neg).1 = .ok none ∧
      (model_generate env st name seeds maxBranch accum minCond minProb maxStep neg).2.buildTrace
        = st.buildTrace) ∧
    (∀ sequences,
      (model_record_sequence env st name sequences).1 = .ok none ∧
      (model_record_sequence env st name sequences).2.buildTrace = st.buildTrace) ∧
    (∀ dataset,
      (model_record_default env st name dataset).1 = .ok none ∧
      (model_record_default env st name dataset).2.buildTrace = st.buildTrace) ∧
    (∀ sentences,
      (model_sentences_to_ids env st name sentences).1 = .ok none ∧
      (model_sentences_to_ids env st name sentences).2.buildTrace = st.buildTrace) ∧
    (∀ state_name layers sample_size,
      (model_state_signature env st name state_name layers sample_size).1 = .ok none ∧
      (model_state_signature env st name state_name layers sample_size).2.buildTrace
        = st.buildTrace) ∧
    (∀ state_name layers top_k,
      (model_strength env st name state_name layers top_k).1 = .ok none ∧
      (model_strength env st name state_name layers top_k).2.buildTrace = st.buildTrace) ∧
    (∀ state_name layer method,
      (model_state_projection env st name state_name layer method).1 = .ok none ∧
      (model_state_projection env st name state_name layer method).2.buildTrace
        = st.buildTrace) := by
  have hgm := get_model_unknown env st name false hcat hmiss
  refine ⟨?_, ?_, ?_, ?_, ?_, ?_, ?_, ?_⟩
  · simp [get_config_filename, hcat]
  · intro seeds maxBranch accum minCond minProb maxStep neg
    simp [model_generate, hgm]
  · intro sequences
    simp [model_record_sequence, hgm]
  · intro dataset
    simp [model_record_default, hgm]
  · intro sentences
    simp [model_sentences_to_ids, hgm]
  · intro state_name layers sample_size
    simp [model_state_signature, hgm]
  · intro state_name layers top_k
    simp [model_strength, hgm]
  · intro state_name layer method
    simp [model_state_projection, hgm]

/-- C1 witness: the unknown name `"PTB"` (a name the commented-out legacy
code once used) on a fresh manager. -/
theorem c1_unknown_name_all_ops_none_witness :
    get_config_filename "PTB" = none ∧
    (model_generate envW initState "PTB" [0] 1 1 0 0 10 []).1 = .ok none ∧
    (model_generate envW initState "PTB" [0] 1 1 0 0 10 []).2.buildTrace = initState.buildTrace ∧
    (model_record_sequence envW initState "PTB" [["the"]]).1 = .ok none ∧
    (model_record_sequence envW initState "PTB" [["the"]]).2.buildTrace = initState.buildTrace ∧
    (model_record_default envW initState "PTB" "train").1 = .ok none ∧
    (model_record_default envW initState "PTB" "train").2.buildTrace = initState.buildTrace ∧
    (model_sentences_to_ids envW initState "PTB" [["the"]]).1 = .ok none ∧
    (model_sentences_to_ids envW initState "PTB" [["the"]]).2.buildTrace = initState.buildTrace ∧
    (model_state_signature envW initState "PTB" "state_c" [0] 1000).1 = .ok none ∧
    (model_state_signature envW initState "PTB" "state_c" [0] 1000).2.buildTrace
      = initState.buildTrace ∧
    (model_strength envW initState "PTB" "state_c" [0] 100).1 = .ok none ∧
    (model_strength envW initState "PTB" "state_c" [0] 100).2.buildTrace = initState.buildTrace ∧
    (model_state_projection envW initState "PTB" "state_c" (-1) "tsne").1 = .ok none ∧
    (model_state_projection envW initState "PTB" "state_c" (-1) "tsne").2.buildTrace
      = initState.buildTrace := by
  obtain ⟨h₁, h₂, h₃, h₄, h₅, h₆, h₇, h₈⟩ :=
    c1_unknown_name_all_ops_none envW initState "PTB" (by decide) (by decide)
  exact ⟨h₁, (h₂ [0] 1 1 0 0 10 []).1, (h₂ [0] 1 1 0 0 10 []).2,
    (h₃ [["the"]]).1, (h₃ [["the"]]).2, (h₄ "train").1, (h₄ "train").2,
    (h₅ [["the"]]).1, (h₅ [["the"]]).2, (h₆ "state_c" [0] 1000).1, (h₆ "state_c" [0] 1000).2,
    (h₇ "state_c" [0] 100).1, (h₇ "state_c" [0] 100).2,
    (h₈ "state_c" (-1) "tsne").1, (h₈ "state_c" (-1) "tsne").2⟩

/-! ## C2 -/

/-- Number of `build_model` invocations recorded for a given logical
name. -/
def countB (name : String) (l : List String) : Nat :=
  (l.filter (fun s => s = name)).length

/-- `n` successive `_get_model` resolutions of the same name, threading
the manager state. -/
def resolve_iter (env : Env) (name : String) (train : Bool) :
    Nat → ManagerState → ManagerState
  | 0, st => st
  | n + 1, st => resolve_iter env name train n (get_model env st name train).2

/-- On success, `_load_model` appends exactly one `build_model`
invocation for the name to the trace. -/
theorem load_model_true_buildTrace (env : Env) (st : ManagerState) (name : String) (train : Bool)
    (st₁ : ManagerState)
    (h : load_model env st name train = (.ok true, st₁)) :
    st₁.buildTrace = st.buildTrace ++ [name] := by
  unfold load_model at h
  split at h
  · dsimp only at h
    split at h
    · simp at h
    · simp at h
      rw [← h]
  · simp at h

/-- A `_get_model` call that misses the cache but returns a model went
through a successful `_load_model`. -/
theorem get_model_miss_load (env : Env) (st : ManagerState) (name : String) (train : Bool)
    (m : Model) (st₁ : ManagerState)
    (hmiss : lookupS name st.models = none)
    (h : get_model env st name train = (.ok (some m), st₁)) :
    load_model env st name train = (.ok true, st₁) := by
  unfold get_model at h
  rw [hmiss] at h
  cases hload : load_model env st name train with
  | mk r st₂ =>
    rw [hload] at h
    cases r with
    | error e => simp at h
    | ok flag =>
      cases flag with
      | false => simp at h
      | true =>
        simp at h
        cases hl : lookupS name st₂.models with
        | some m₂ =>
          rw [hl] at h
          simp at h
          rw [h.2]
        | none => rw [hl] at h; simp at h

/-- C2: the model cache is idempotent.  If a name is not yet cached and
has never been built, a successful resolution invokes `build_model`
exactly once for it, and every subsequent resolution returns the same
cached handle while leaving the manager state (and hence the build count)
completely unchanged — so after the first of `N ≥ 1` resolutions the
build count stays exactly 1. -/
theorem c2_cache_idempotent (env : Env) (st : ManagerState) (name : String) (train : Bool)
    (m : Model) (st₁ : ManagerState)
    (hmiss : lookupS name st.models = none)
    (hfresh : countB name st.buildTrace = 0)
    (hload : get_model env st name train = (.ok (some m), st₁)) :
    countB name st₁.buildTrace = 1 ∧
    get_model env st₁ name train = (.ok (some m), st₁) ∧
    ∀ N, resolve_iter env name train N st₁ = st₁ := by
  have hcached : lookupS name st₁.models = some m :=
    get_model_some_lookup env st name train m st₁ hload
  have hagain : get_model env st₁ name train = (.ok (some m), st₁) :=
    get_model_cached env st₁ name train m hcached
  refine ⟨?_, hagain, ?_⟩
  · -- the load path appended exactly one build of `name` to the trace
    have hld := get_model_miss_load env st name train m st₁ hmiss hload
    rw [load_model_true_buildTrace env st name train st₁ hld]
    simp [countB, List.filter_append] at hfresh ⊢
    exact hfresh
  · intro N
    induction N with
    | zero => rfl
    | succ n ih =>
      show resolve_iter env name train n (get_model env st₁ name train).2 = st₁
      rw [hagain]
      exact ih

/-- C2 witness: loading `PTB-LSTM` in `envW` from a fresh manager builds
it once, and three further resolutions return the cached handle with the
state unchanged. -/
theorem c2_cache_idempotent_witness :
    countB "PTB-LSTM" stLstm.buildTrace = 1 ∧
    get_model envW stLstm "PTB-LSTM" false = (.ok (some mW), stLstm) ∧
    ∀ N, resolve_iter envW "PTB-LSTM" false N stLstm = stLstm := by
  have h := c2_cache_idempotent envW initState "PTB-LSTM" false mW stLstm
    (by rfl) (by rfl) get_model_envW_lstm
  exact h

/-! ## C3 -/

/-- The two caches are keyed identically: a name has a model handle
exactly when it has a training configuration. -/
def caches_aligned {β : Type} (ms : List (String × Model)) (cs : List (String × β)) : Prop :=
  ∀ n, (lookupS n ms).isSome ↔ (lookupS n cs).isSome

/-- The C3 invariant on a manager state. -/
def manager_inv (st : ManagerState) : Prop :=
  caches_aligned st.models st.train_configs

theorem caches_aligned_setS_model {β : Type} (ms : List (String × Model))
    (cs : List (String × β)) (name : String) (m' : Model)
    (h : caches_aligned ms cs) (hm : (lookupS name ms).isSome) :
    caches_aligned (setS name m' ms) cs := by
  intro n
  by_cases hn : n = name
  · subst hn
    rw [lookupS_setS_self]
    simpa using (h n).mp hm
  · rw [lookupS_setS_other name n _ _ hn]
    exact h n

/-- `_load_model` preserves the invariant (it installs handle and
configuration together, or neither). -/
theorem load_model_inv (env : Env) (st : ManagerState) (name : String) (train : Bool)
    (h : manager_inv st) : manager_inv (load_model env st name train).2 := by
  unfold load_model
  split
  · dsimp only
    split
    · exact h
    · intro n
      by_cases hn : n = name
      · subst hn
        rw [lookupS_setS_self, lookupS_setS_self]
        simp
      · rw [lookupS_setS_other name n _ _ hn, lookupS_setS_other name n _ _ hn]
        exact h n
  · exact h

/-- On an exception, `_load_model` leaves both caches untouched. -/
theorem load_model_error_caches_unchanged (env : Env) (st : ManagerState) (name : String)
    (train : Bool) (e : PyError) (st₁ : ManagerState)
    (h : load_model env st name train = (.error e, st₁)) :
    st₁.models = st.models ∧ st₁.train_configs = st.train_configs := by
  unfold load_model at h
  split at h
  · dsimp only at h
    split at h
    · simp at h
      rw [← h.2]
      exact ⟨rfl, rfl⟩
    · simp at h
  · simp at h

/-- `_get_model` preserves the invariant. -/
theorem get_model_inv (env : Env) (st : ManagerState) (name : String) (train : Bool)
    (h : manager_inv st) : manager_inv (get_model env st name train).2 := by
  unfold get_model
  split
  · exact h
  · cases hload : load_model env st name train with
    | mk r st₂ =>
      have h₂ : manager_inv st₂ := by
        have hh := load_model_inv env st name train h
        rw [hload] at hh
        exact hh
      cases r with
      | error e => exact h₂
      | ok flag =>
        cases flag with
        | false => exact h₂
        | true =>
          show manager_inv (match lookupS name st₂.models with
            | some m => (Except.ok (some m), st₂)
            | none => (Except.error PyError.keyError, st₂)).2
          cases lookupS name st₂.models with
          | some m => exact h₂
          | none => exact h₂

theorem get_model_inv_eq (env : Env) (st : ManagerState) (name : String) (train : Bool)
    (r : Except PyError (Option Model)) (st₁ : ManagerState)
    (hgm : get_model env st name train = (r, st₁)) (h : manager_inv st) : manager_inv st₁ := by
  have hh := get_model_inv env st name train h
  rw [hgm] at hh
  exact hh

theorem model_generate_inv (env : Env) (st : ManagerState) (name : String) (seeds : List Nat)
    (maxBranch : Nat) (accum minCond minProb : ℚ) (maxStep : Nat) (neg : List Nat)
    (h : manager_inv st) :
    manager_inv (model_generate env st name seeds maxBranch accum minCond minProb maxStep neg).2 := by
  unfold model_generate
  cases hgm : get_model env st name false with
  | mk r st₁ =>
    have h₁ := get_model_inv_eq env st name false r st₁ hgm h
    cases r with
    | error e => exact h₁
    | ok om =>
      cases om with
      | none => exact h₁
      | some m => exact h₁


theorem record_sequence_body_inv (env : Env) (st₁ : ManagerState) (name : String)
    (sequences : List (List String)) (m : Model)
    (h₁ : manager_inv st₁) (hsome : lookupS name st₁.models = some m) :
    manager_inv (record_sequence_body env st₁ name sequences m).2 := by
  unfold record_sequence_body
  cases lookupS name st₁.train_configs with
  | none => exact h₁
  | some config =>
    cases py_max_len sequences with
    | error e => exact h₁
    | ok max_len =>
      cases env.streamOutcome name with
      | ok => exact caches_aligned_setS_model _ _ name _ h₁ (by rw [hsome]; rfl)
      | valueError => exact caches_aligned_setS_model _ _ name _ h₁ (by rw [hsome]; rfl)
      | otherError => exact caches_aligned_setS_model _ _ name _ h₁ (by rw [hsome]; rfl)

theorem model_record_sequence_inv (env : Env) (st : ManagerState) (name : String)
    (sequences : List (List String)) (h : manager_inv st) :
    manager_inv (model_record_sequence env st name sequences).2 := by
  unfold model_record_sequence
  cases hgm : get_model env st name false with
  | mk r st₁ =>
    have h₁ := get_model_inv_eq env st name false r st₁ hgm h
    cases r with
    | error e => exact h₁
    | ok om =>
      cases om with
      | none => exact h₁
      | some m =>
        exact record_sequence_body_inv env st₁ name sequences m h₁
          (get_model_some_lookup env st name false m st₁ hgm)

theorem record_default_body_inv (env : Env) (st₁ : ManagerState) (name dataset : String)
    (m : Model) (h₁ : manager_inv st₁) (hsome : lookupS name st₁.models = some m) :
    manager_inv (record_default_body env st₁ name dataset m).2 := by
  unfold record_default_body
  cases lookupS name st₁.train_configs with
  | none => exact h₁
  | some config =>
    dsimp only
    by_cases hd : dataset = "test" ∨ dataset = "train" ∨ dataset = "valid"
    · rw [if_pos hd]
      cases env.streamOutcome name with
      | ok => exact caches_aligned_setS_model _ _ name _ h₁ (by rw [hsome]; rfl)
      | valueError => exact caches_aligned_setS_model _ _ name _ h₁ (by rw [hsome]; rfl)
      | otherError => exact caches_aligned_setS_model _ _ name _ h₁ (by rw [hsome]; rfl)
    · rw [if_neg hd]
      exact h₁

theorem model_record_default_inv (env : Env) (st : ManagerState) (name dataset : String)
    (h : manager_inv st) :
    manager_inv (model_record_default env st name dataset).2 := by
  unfold model_record_default
  cases hgm : get_model env st name false with
  | mk r st₁ =>
    have h₁ := get_model_inv_eq env st name false r st₁ hgm h
    cases r with
    | error e => exact h₁
    | ok om =>
      cases om with
      | none => exact h₁
      | some m =>
        exact record_default_body_inv env st₁ name dataset m h₁
          (get_model_some_lookup env st name false m st₁ hgm)

theorem model_sentences_to_ids_inv (env : Env) (st : ManagerState) (name : String)
    (sentences : List (List String)) (h : manager_inv st) :
    manager_inv (model_sentences_to_ids env st name sentences).2 := by
  unfold model_sentences_to_ids
  cases hgm : get_model env st name false with
  | mk r st₁ =>
    have h₁ := get_model_inv_eq env st name false r st₁ hgm h
    cases r with
    | error e => exact h₁
    | ok om =>
      cases om with
      | none => exact h₁
      | some m => exact h₁

theorem state_signature_body_inv (env : Env) (st₁ : ManagerState) (name state_name : String)
    (layers : List Nat) (sample_size : Nat) (m : Model) (h₁ : manager_inv st₁) :
    manager_inv (state_signature_body env st₁ name state_name layers sample_size m).2 := by
  unfold state_signature_body
  cases lookupS name st₁.train_configs with
  | none => exact h₁
  | some config => exact h₁

theorem model_state_signature_inv (env : Env) (st : ManagerState) (name state_name : String)
    (layers : List Nat) (sample_size : Nat) (h : manager_inv st) :
    manager_inv (model_state_signature env st name state_name layers sample_size).2 := by
  unfold model_state_signature
  cases hgm : get_model env st name false with
  | mk r st₁ =>
    have h₁ := get_model_inv_eq env st name false r st₁ hgm h
    cases r with
    | error e => exact h₁
    | ok om =>
      cases om with
      | none => exact h₁
      | some m => exact state_signature_body_inv env st₁ name state_name layers sample_size m h₁

theorem strength_body_inv (env : Env) (st₁ : ManagerState) (name state_name : String)
    (layers : List Nat) (top_k : Nat) (m : Model) (h₁ : manager_inv st₁) :
    manager_inv (strength_body env st₁ name state_name layers top_k m).2 := by
  unfold strength_body
  cases lookupS name st₁.train_configs with
  | none => exact h₁
  | some config => exact h₁

theorem model_strength_inv (env : Env) (st : ManagerState) (name state_name : String)
    (layers : List Nat) (top_k : Nat) (h : manager_inv st) :
    manager_inv (model_strength env st name state_name layers top_k).2 := by
  unfold model_strength
  cases hgm : get_model env st name false with
  | mk r st₁ =>
    have h₁ := get_model_inv_eq env st name false r st₁ hgm h
    cases r with
    | error e => exact h₁
    | ok om =>
      cases om with
      | none => exact h₁
      | some m => exact strength_body_inv env st₁ name state_name layers top_k m h₁

theorem state_projection_body_inv (env : Env) (st₁ : ManagerState) (name state_name : String)
    (layer : Int) (method : String) (m : Model) (h₁ : manager_inv st₁) :
    manager_inv (state_projection_body env st₁ name state_name layer method m).2 := by
  unfold state_projection_body
  cases lookupS name st₁.train_configs with
  | none => exact h₁
  | some config =>
    dsimp only
    by_cases hm : method = "tsne"
    · rw [if_pos hm]
      cases py_list_set (List.replicate m.cell_list_len 0) layer
          (env.tsneShape config.dataset m.name state_name layer) with
      | error e => exact h₁
      | ok states_num => exact h₁
    · rw [if_neg hm]
      exact h₁

theorem model_state_projection_inv (env : Env) (st : ManagerState) (name state_name : String)
    (layer : Int) (method : String) (h : manager_inv st) :
    manager_inv (model_state_projection env st name state_name layer method).2 := by
  unfold model_state_projection
  cases hgm : get_model env st name false with
  | mk r st₁ =>
    have h₁ := get_model_inv_eq env st name false r st₁ hgm h
    cases r with
    | error e => exact h₁
    | ok om =>
      cases om with
      | none => exact h₁
      | some m => exact state_projection_body_inv env st₁ name state_name layer method m h₁

/-- C3: the key sets of the model cache and the training-config cache
coincide in the initial state and are preserved by every operation (so
they coincide after every sequence of operations); the handle and its
configuration are installed together on load success, and a failing load
(e.g. the checkpoint-existence assertion) leaves both caches untouched. -/
theorem c3_caches_installed_together :
    manager_inv initState ∧
    (∀ env st name train e st₁, load_model env st name train = (.error e, st₁) →
      st₁.models = st.models ∧ st₁.train_configs = st.train_configs) ∧
    (∀ env st name train, manager_inv st → manager_inv (get_model env st name train).2) ∧
    (∀ env st name seeds maxBranch accum minCond minProb maxStep neg, manager_inv st →
      manager_inv (model_generate env st name seeds maxBranch accum minCond minProb maxStep neg).2) ∧
    (∀ env st name sequences, manager_inv st →
      manager_inv (model_record_sequence env st name sequences).2) ∧
    (∀ env st name dataset, manager_inv st →
      manager_inv (model_record_default env st name dataset).2) ∧
    (∀ env st name sentences, manager_inv st →
      manager_inv (model_sentences_to_ids env st name sentences).2) ∧
    (∀ env st name state_name layers sample_size, manager_inv st →
      manager_inv (model_state_signature env st name state_name layers sample_size).2) ∧
    (∀ env st name state_name layers top_k, manager_inv st →
      manager_inv (model_strength env st name state_name layers top_k).2) ∧
    (∀ env st name state_name layer method, manager_inv st →
      manager_inv (model_state_projection env st name state_name layer method).2) := by
  refine ⟨?_, ?_, ?_, ?_, ?_, ?_, ?_, ?_, ?_, ?_⟩
  · intro n
    simp [initState, lookupS]
  · intro env st name train e st₁ h
    exact load_model_error_caches_unchanged env st name train e st₁ h
  · intro env st name train h
    exact get_model_inv env st name train h
  · intro env st name seeds maxBranch accum minCond minProb maxStep neg h
    exact model_generate_inv env st name seeds maxBranch accum minCond minProb maxStep neg h
  · intro env st name sequences h
    exact model_record_sequence_inv env st name sequences h
  · intro env st name dataset h
    exact model_record_default_inv env st name dataset h
  · intro env st name sentences h
    exact model_sentences_to_ids_inv env st name sentences h
  · intro env st name state_name layers sample_size h
    exact model_state_signature_inv env st name state_name layers sample_size h
  · intro env st name state_name layers top_k h
    exact model_strength_inv env st name state_name layers top_k h
  · intro env st name state_name layer method h
    exact model_state_projection_inv env st name state_name layer method h

/-- C3 witness: instantiating the preservation statements along the
concrete run `init → load PTB-LSTM → record_default "train"`. -/
theorem c3_caches_installed_together_witness :
    manager_inv (get_model envW initState "PTB-LSTM" false).2 ∧
    manager_inv (model_record_default envW stLstm "PTB-LSTM" "train").2 := by
  obtain ⟨h0, -, hget, -, -, hdef, -, -, -, -⟩ := c3_caches_installed_together
  refine ⟨hget envW initState "PTB-LSTM" false h0, hdef envW stLstm "PTB-LSTM" "train" ?_⟩
  intro n
  by_cases hn : "PTB-LSTM" = n <;> simp [stLstm, lookupS, hn]

/-! ## C4 -/

/-- Branch selection never takes more than the remaining branch budget. -/
theorem select_branches_length (maxBranch : Nat) (accum minCond minProb parentCum : ℚ)
    (cands : List (Nat × ℚ)) :
    ∀ count s, (select_branches maxBranch accum minCond minProb parentCum cands count s).length
      ≤ maxBranch - count := by
  induction cands with
  | nil =>
    intro count s
    simp [select_branches]
  | cons c rest ih =>
    intro count s
    unfold select_branches
    split_ifs with h1 h2 h3 h4
    · simp
    · simp
    · simp
    · exact ih count s
    · simp only [List.length_cons]
      have hr := ih (count + 1) (s + c.2)
      omega

/-- The running sum discipline: if the sum so far is within the budget,
it stays within the budget after adding every selected branch. -/
theorem select_branches_sum (maxBranch : Nat) (accum minCond minProb parentCum : ℚ)
    (cands : List (Nat × ℚ)) :
    ∀ count (s : ℚ), s ≤ accum →
      s + ((select_branches maxBranch accum minCond minProb parentCum cands count s).map
        (fun c => c.2)).sum ≤ accum := by
  induction cands with
  | nil =>
    intro count s hs
    simpa [select_branches] using hs
  | cons c rest ih =>
    intro count s hs
    unfold select_branches
    split_ifs with h1 h2 h3 h4
    · simpa using hs
    · simpa using hs
    · simpa using hs
    · exact ih count s hs
    · simp only [List.map_cons, List.sum_cons]
      have hr := ih (count + 1) (s + c.2) (not_lt.mp h2)
      linarith

/-- Every selected branch meets the conditional-probability floor and
the cumulative-path-probability floor. -/
theorem select_branches_mem (maxBranch : Nat) (accum minCond minProb parentCum : ℚ)
    (cands : List (Nat × ℚ)) :
    ∀ count s x, x ∈ select_branches maxBranch accum minCond minProb parentCum cands count s →
      minCond ≤ x.2 ∧ minProb ≤ parentCum * x.2 := by
  induction cands with
  | nil =>
    intro count s x hx
    simp [select_branches] at hx
  | cons c rest ih =>
    intro count s x hx
    unfold select_branches at hx
    split_ifs at hx with h1 h2 h3 h4
    · simp at hx
    · simp at hx
    · simp at hx
    · exact ih count s x hx
    · rcases List.mem_cons.mp hx with hc | hr
      · subst hc
        exact ⟨not_lt.mp h3, not_lt.mp h4⟩
      · exact ih (count + 1) (s + c.2) x hr

/-- The per-node pruning contract of the branching generator: at most
`max_branch` children, the children's conditional probabilities summing
to at most `accum_cond_prob`, every child's conditional probability at
least `min_cond_prob`, and every child's cumulative path probability at
least `min_prob`. -/
def node_ok (maxBranch : Nat) (accum minCond minProb : ℚ) (t : GenNode) : Prop :=
  t.children.length ≤ maxBranch ∧
  (t.children.map GenNode.cond_prob).sum ≤ accum ∧
  ∀ c ∈ t.children, minCond ≤ c.cond_prob ∧ minProb ≤ c.cum_prob

/-- `P` holds at a node and, recursively, at every node below it. -/
inductive AllNodes (P : GenNode → Prop) : GenNode → Prop where
  | mk (w : Nat) (cp pp : ℚ) (cs : List GenNode) :
      P (.mk w cp pp cs) → (∀ t ∈ cs, AllNodes P t) → AllNodes P (.mk w cp pp cs)

/-- The list of children generated at any expansion point satisfies the
pruning contract. -/
theorem gen_children_props (dist : List Nat → List (Nat × ℚ)) (neg : List Nat)
    (maxBranch : Nat) (accum minCond minProb : ℚ) (ha : 0 ≤ accum)
    (fuel : Nat) (toks : List Nat) (parentCum : ℚ) :
    (gen_children dist neg maxBranch accum minCond minProb fuel toks parentCum).length ≤ maxBranch ∧
    ((gen_children dist neg maxBranch accum minCond minProb fuel toks parentCum).map
      GenNode.cond_prob).sum ≤ accum ∧
    ∀ c ∈ gen_children dist neg maxBranch accum minCond minProb fuel toks parentCum,
      minCond ≤ c.cond_prob ∧ minProb ≤ c.cum_prob := by
  cases fuel with
  | zero =>
    refine ⟨by simp [gen_children], by simpa [gen_children] using ha, ?_⟩
    intro c hc
    simp [gen_children] at hc
  | succ f =>
    unfold gen_children
    dsimp only
    refine ⟨?_, ?_, ?_⟩
    · rw [List.length_map]
      have := select_branches_length maxBranch accum minCond minProb parentCum
        (sortDesc ((dist toks).filter (fun c => !neg.contains c.1))) 0 0
      omega
    · rw [List.map_map]
      have hsum := select_branches_sum maxBranch accum minCond minProb parentCum
        (sortDesc ((dist toks).filter (fun c => !neg.contains c.1))) 0 0 ha
      rw [zero_add] at hsum
      have heq : (GenNode.cond_prob ∘ fun (c : Nat × ℚ) =>
          GenNode.mk c.1 c.2 (parentCum * c.2)
            (gen_children dist neg maxBranch accum minCond minProb f (toks ++ [c.1])
              (parentCum * c.2))) = fun (c : Nat × ℚ) => c.2 := by
        funext c
        rfl
      rw [heq]
      exact hsum
    · intro c hc
      rw [List.mem_map] at hc
      obtain ⟨x, hx, hxc⟩ := hc
      have := select_branches_mem maxBranch accum minCond minProb parentCum
        (sortDesc ((dist toks).filter (fun c => !neg.contains c.1))) 0 0 x hx
      rw [← hxc]
      exact this

/-- Every node of a generated subtree satisfies the pruning contract. -/
theorem gen_children_all_nodes (dist : List Nat → List (Nat × ℚ)) (neg : List Nat)
    (maxBranch : Nat) (accum minCond minProb : ℚ) (ha : 0 ≤ accum) :
    ∀ fuel toks parentCum,
      ∀ t ∈ gen_children dist neg maxBranch accum minCond minProb fuel toks parentCum,
        AllNodes (node_ok maxBranch accum minCond minProb) t := by
  intro fuel
  induction fuel with
  | zero =>
    intro toks parentCum t ht
    simp [gen_children] at ht
  | succ f ih =>
    intro toks parentCum t ht
    unfold gen_children at ht
    rw [List.mem_map] at ht
    obtain ⟨x, hx, hxt⟩ := ht
    rw [← hxt]
    refine AllNodes.mk _ _ _ _ ?_ ?_
    · have hp := gen_children_props dist neg maxBranch accum minCond minProb ha f
        (toks ++ [x.1]) (parentCum * x.2)
      exact ⟨hp.1, hp.2.1, hp.2.2⟩
    · intro u hu
      exact ih (toks ++ [x.1]) (parentCum * x.2) u hu

/-- C4 (spec-modelled generator): in the tree returned by
`model_generate` for a resolvable name, every node's selected children
simultaneously satisfy all pruning predicates: at most `max_branch`
children, conditional probabilities summing to at most
`accum_cond_prob`, no conditional probability below `min_cond_prob`, and
no cumulative path probability below `min_prob`. -/
theorem c4_generate_pruning (env : Env) (st : ManagerState) (name : String) (seeds : List Nat)
    (maxBranch : Nat) (accum minCond minProb : ℚ) (maxStep : Nat) (neg : List Nat) (t : GenNode)
    (ha : 0 ≤ accum)
    (h : (model_generate env st name seeds maxBranch accum minCond minProb maxStep neg).1
      = .ok (some t)) :
    AllNodes (node_ok maxBranch accum minCond minProb) t := by
  unfold model_generate at h
  cases hgm : get_model env st name false with
  | mk r st₁ =>
    rw [hgm] at h
    cases r with
    | error e => simp at h
    | ok om =>
      cases om with
      | none => simp at h
      | some m =>
        simp at h
        rw [← h]
        unfold model_generate_tree
        refine AllNodes.mk _ _ _ _ ?_ ?_
        · have hp := gen_children_props (env.dist m.name) neg maxBranch accum minCond minProb
            ha maxStep seeds 1
          exact ⟨hp.1, hp.2.1, hp.2.2⟩
        · intro u hu
          exact gen_children_all_nodes (env.dist m.name) neg maxBranch accum minCond minProb
            ha maxStep seeds 1 u hu

/-- C4 witness: generating from the cached `PTB-LSTM` in `envW` with
`max_branch = 1`, `accum_cond_prob = 1`, one step, no excluded ids. -/
theorem c4_generate_pruning_witness :
    AllNodes (node_ok 1 1 0 0) (GenNode.mk 0 1 1 [GenNode.mk 5 1 1 []]) := by
  refine c4_generate_pruning envW stLstm "PTB-LSTM" [0] 1 1 0 0 1 []
    (GenNode.mk 0 1 1 [GenNode.mk 5 1 1 []]) (by norm_num) ?_
  have hgm := get_model_envW_stLstm
  simp only [model_generate, hgm]
  norm_num [model_generate_tree, gen_children, sortDesc, insertDesc, select_branches, envW]

/-! ## Frame and body-behaviour lemmas shared by C5–C10 -/

/-- `_load_model` never streams, pours or writes records. -/
theorem load_model_frame (env : Env) (st : ManagerState) (name : String) (train : Bool) :
    (load_model env st name train).2.pourTrace = st.pourTrace ∧
    (load_model env st name train).2.streamCalls = st.streamCalls ∧
    (load_model env st name train).2.recorderWrites = st.recorderWrites := by
  unfold load_model
  split
  · dsimp only
    split
    · exact ⟨rfl, rfl, rfl⟩
    · exact ⟨rfl, rfl, rfl⟩
  · exact ⟨rfl, rfl, rfl⟩

/-- The state after `_get_model` is either the input state (cache hit)
or the state after `_load_model`. -/
theorem get_model_state (env : Env) (st : ManagerState) (name : String) (train : Bool) :
    (get_model env st name train).2 = st ∨
    (get_model env st name train).2 = (load_model env st name train).2 := by
  unfold get_model
  split
  · left
    rfl
  · cases hload : load_model env st name train with
    | mk r st₂ =>
      right
      cases r with
      | error e => rfl
      | ok flag =>
        cases flag with
        | false => rfl
        | true =>
          show (match lookupS name st₂.models with
            | some m => (Except.ok (some m), st₂)
            | none => (Except.error PyError.keyError, st₂)).2 = st₂
          cases lookupS name st₂.models with
          | some m => rfl
          | none => rfl

/-- `_get_model` never streams, pours or writes records. -/
theorem get_model_frame (env : Env) (st : ManagerState) (name : String) (train : Bool) :
    (get_model env st name train).2.pourTrace = st.pourTrace ∧
    (get_model env st name train).2.streamCalls = st.streamCalls ∧
    (get_model env st name train).2.recorderWrites = st.recorderWrites := by
  rcases get_model_state env st name train with h | h
  · rw [h]
    exact ⟨rfl, rfl, rfl⟩
  · rw [h]
    exact load_model_frame env st name train

/-- Full behaviour of the `model_record_sequence` tail once the model is
resolved, the configuration is present and `max_len` is computed. -/
theorem record_sequence_body_spec (env : Env) (st₁ : ManagerState) (name : String)
    (seqs : List (List String)) (m : Model) (config : TrainConfig) (stride : Nat)
    (hc : lookupS name st₁.train_configs = some config)
    (hstride : py_max_len seqs = .ok stride) :
    lookupS name (record_sequence_body env st₁ name seqs m).2.models
      = some { m with record_every := stride } ∧
    (record_sequence_body env st₁ name seqs m).2.producerTrace
      = st₁.producerTrace ++ [(1, stride, 1)] ∧
    (∃ r st₂, record_sequence_body env st₁ name seqs m = (.ok r, st₂)) ∧
    (env.streamOutcome name = .ok →
      (record_sequence_body env st₁ name seqs m).1
        = .ok (some (seqs.map (fun s => (s, ()))))) ∧
    (env.streamOutcome name = .valueError →
      (record_sequence_body env st₁ name seqs m).1 = .ok none ∧
      (record_sequence_body env st₁ name seqs m).2.logs
        = st₁.logs ++ ["ERROR: Fail to evaluate given sequence! Sequence length too large!"]) ∧
    (env.streamOutcome name = .otherError →
      (record_sequence_body env st₁ name seqs m).1 = .ok none ∧
      (record_sequence_body env st₁ name seqs m).2.logs
        = st₁.logs ++ ["ERROR: Fail to evaluate given sequence! Unknown Reason."]) := by
  unfold record_sequence_body
  rw [hc, hstride]
  dsimp only
  cases houtcome : env.streamOutcome name with
  | ok =>
    refine ⟨lookupS_setS_self _ _ _, rfl, ⟨_, _, rfl⟩, fun _ => rfl, ?_, ?_⟩
    · intro hh
      exact StreamOutcome.noConfusion hh
    · intro hh
      exact StreamOutcome.noConfusion hh
  | valueError =>
    refine ⟨lookupS_setS_self _ _ _, rfl, ⟨_, _, rfl⟩, ?_, fun _ => ⟨rfl, rfl⟩, ?_⟩
    · intro hh
      exact StreamOutcome.noConfusion hh
    · intro hh
      exact StreamOutcome.noConfusion hh
  | otherError =>
    refine ⟨lookupS_setS_self _ _ _, rfl, ⟨_, _, rfl⟩, ?_, ?_, fun _ => ⟨rfl, rfl⟩⟩
    · intro hh
      exact StreamOutcome.noConfusion hh
    · intro hh
      exact StreamOutcome.noConfusion hh

/-- Full behaviour of the `model_record_default` tail once the model is
resolved and the configuration is present. -/
theorem record_default_body_spec (env : Env) (st₁ : ManagerState) (name dataset : String)
    (m : Model) (config : TrainConfig)
    (hc : lookupS name st₁.train_configs = some config) :
    (dataset = "test" ∨ dataset = "train" ∨ dataset = "valid" →
      lookupS name (record_default_body env st₁ name dataset m).2.models
        = some { m with record_every := config.num_steps } ∧
      (record_default_body env st₁ name dataset m).2.pourTrace
        = st₁.pourTrace ++ [(config.dataset, dataset, 1, 1, config.num_steps)] ∧
      (env.streamOutcome name = .ok →
        (record_default_body env st₁ name dataset m).1 = .ok (some true)) ∧
      (env.streamOutcome name ≠ .ok →
        (record_default_body env st₁ name dataset m).1 = .ok (some false))) ∧
    (¬(dataset = "test" ∨ dataset = "train" ∨ dataset = "valid") →
      record_default_body env st₁ name dataset m
        = (.error (.assertionError "dataset should be 'train', 'valid' or 'test'"), st₁)) := by
  unfold record_default_body
  rw [hc]
  dsimp only
  constructor
  · intro hd
    rw [if_pos hd]
    cases houtcome : env.streamOutcome name with
    | ok =>
      refine ⟨lookupS_setS_self _ _ _, rfl, fun _ => rfl, ?_⟩
      intro hh
      exact absurd rfl hh
    | valueError =>
      refine ⟨lookupS_setS_self _ _ _, rfl, ?_, fun _ => rfl⟩
      intro hh
      exact StreamOutcome.noConfusion hh
    | otherError =>
      refine ⟨lookupS_setS_self _ _ _, rfl, ?_, fun _ => rfl⟩
      intro hh
      exact StreamOutcome.noConfusion hh
  · intro hd
    rw [if_neg hd]

theorem le_foldl_max (l : List Nat) : ∀ b : Nat, b ≤ l.foldl Nat.max b := by
  induction l with
  | nil =>
    intro b
    simp
  | cons a rest ih =>
    intro b
    exact le_trans (Nat.le_max_left b a) (ih (Nat.max b a))

theorem mem_le_foldl_max (l : List Nat) : ∀ b x, x ∈ l → x ≤ l.foldl Nat.max b := by
  induction l with
  | nil =>
    intro b x hx
    simp at hx
  | cons a rest ih =>
    intro b x hx
    rcases List.mem_cons.mp hx with h | h
    · subst h
      exact le_trans (Nat.le_max_right b x) (le_foldl_max rest (Nat.max b x))
    · exact ih (Nat.max b a) x h

theorem foldl_max_mem (l : List Nat) : ∀ b, l.foldl Nat.max b = b ∨ l.foldl Nat.max b ∈ l := by
  induction l with
  | nil =>
    intro b
    left
    rfl
  | cons a rest ih =>
    intro b
    have hred : List.foldl Nat.max b (a :: rest) = List.foldl Nat.max (Nat.max b a) rest := rfl
    rcases ih (Nat.max b a) with h | h
    · rcases Nat.le_total a b with hba | hba
      · left
        rw [hred, h]
        exact max_eq_left hba
      · right
        rw [hred, h]
        have hmax : Nat.max b a = a := max_eq_right hba
        rw [hmax]
        exact List.mem_cons_self a rest
    · right
      rw [hred]
      exact List.mem_cons_of_mem a h

/-- `max([len(s) for s in sequences])` computes the maximum sequence
length (on a non-empty argument). -/
theorem py_max_len_spec (seqs : List (List String)) (stride : Nat)
    (h : py_max_len seqs = .ok stride) :
    (∀ s ∈ seqs, s.length ≤ stride) ∧ (∃ s ∈ seqs, s.length = stride) := by
  cases seqs with
  | nil => simp [py_max_len] at h
  | cons s rest =>
    simp only [py_max_len, Except.ok.injEq] at h
    constructor
    · intro s₂ hs₂
      rcases List.mem_cons.mp hs₂ with hh | hh
      · subst hh
        rw [← h]
        exact le_foldl_max (rest.map List.length) s₂.length
      · rw [← h]
        exact mem_le_foldl_max (rest.map List.length) s.length s₂.length
          (List.mem_map_of_mem List.length hh)
    · rcases foldl_max_mem (rest.map List.length) s.length with hh | hh
      · exact ⟨s, List.mem_cons_self s rest, by rw [← h, hh]⟩
      · rw [List.mem_map] at hh
        obtain ⟨s₂, hs₂, hlen⟩ := hh
        exact ⟨s₂, List.mem_cons_of_mem s hs₂, by rw [← h, hlen]⟩

theorem model_record_sequence_eq_body (env : Env) (st : ManagerState) (name : String)
    (seqs : List (List String)) (m : Model) (st₁ : ManagerState)
    (hm : get_model env st name false = (.ok (some m), st₁)) :
    model_record_sequence env st name seqs = record_sequence_body env st₁ name seqs m := by
  unfold model_record_sequence
  rw [hm]

theorem model_record_default_eq_body (env : Env) (st : ManagerState) (name dataset : String)
    (m : Model) (st₁ : ManagerState)
    (hm : get_model env st name false = (.ok (some m), st₁)) :
    model_record_default env st name dataset = record_default_body env st₁ name dataset m := by
  unfold model_record_default
  rw [hm]

theorem model_state_projection_eq_body (env : Env) (st : ManagerState) (name state_name : String)
    (layer : Int) (method : String) (m : Model) (st₁ : ManagerState)
    (hm : get_model env st name false = (.ok (some m), st₁)) :
    model_state_projection env st name state_name layer method
      = state_projection_body env st₁ name state_name layer method m := by
  unfold model_state_projection
  rw [hm]

/-! ## C5 -/

/-- C5: for every non-empty batch passed to `model_record_sequence` on a
resolvable name, the recorder stride installed in the evaluator
(`record_every`) equals the maximum length among the input sequences,
the wrapping `SentenceProducer` is constructed with batch size 1, window
equal to that maximum, and step 1, and a successful stream returns one
`(doc, record)` pair per input sequence. -/
theorem c5_record_sequence_stride (env : Env) (st : ManagerState) (name : String)
    (seqs : List (List String)) (m : Model) (st₁ : ManagerState) (config : TrainConfig)
    (stride : Nat)
    (hm : get_model env st name false = (.ok (some m), st₁))
    (hc : lookupS name st₁.train_configs = some config)
    (hstride : py_max_len seqs = .ok stride) :
    (∀ s ∈ seqs, s.length ≤ stride) ∧
    (∃ s ∈ seqs, s.length = stride) ∧
    lookupS name (model_record_sequence env st name seqs).2.models
      = some { m with record_every := stride } ∧
    (model_record_sequence env st name seqs).2.producerTrace
      = st₁.producerTrace ++ [(1, stride, 1)] ∧
    (env.streamOutcome name = .ok →
      ∃ pairs, (model_record_sequence env st name seqs).1 = .ok (some pairs) ∧
        pairs.length = seqs.length) := by
  obtain ⟨hmax, hexists⟩ := py_max_len_spec seqs stride hstride
  have hbody := record_sequence_body_spec env st₁ name seqs m config stride hc hstride
  rw [model_record_sequence_eq_body env st name seqs m st₁ hm]
  refine ⟨hmax, hexists, hbody.1, hbody.2.1, ?_⟩
  intro hok
  exact ⟨seqs.map (fun s => (s, ())), hbody.2.2.2.1 hok, List.length_map seqs _⟩

/-- C5 witness: `record_sequence` on the cached `PTB-LSTM` with the two
sequences `["the","cat"]` and `["a","dog","ran"]` uses stride 3, builds
the producer with `(1, 3, 1)`, and returns exactly 2 pairs. -/
theorem c5_record_sequence_stride_witness :
    (∀ s ∈ [["the", "cat"], ["a", "dog", "ran"]], List.length s ≤ 3) ∧
    (∃ s ∈ [["the", "cat"], ["a", "dog", "ran"]], List.length s = 3) ∧
    lookupS "PTB-LSTM"
      (model_record_sequence envW stLstm "PTB-LSTM" [["the", "cat"], ["a", "dog", "ran"]]).2.models
      = some { mW with record_every := 3 } ∧
    (model_record_sequence envW stLstm "PTB-LSTM" [["the", "cat"], ["a", "dog", "ran"]]).2.producerTrace
      = stLstm.producerTrace ++ [(1, 3, 1)] ∧
    (envW.streamOutcome "PTB-LSTM" = .ok →
      ∃ pairs,
        (model_record_sequence envW stLstm "PTB-LSTM" [["the", "cat"], ["a", "dog", "ran"]]).1
          = .ok (some pairs) ∧
        pairs.length = List.length [["the", "cat"], ["a", "dog", "ran"]]) :=
  c5_record_sequence_stride envW stLstm "PTB-LSTM" [["the", "cat"], ["a", "dog", "ran"]]
    mW stLstm tcW 3 get_model_envW_stLstm (by rfl) (by rfl)

/-! ## C6 -/

/-- C6 counterexample: with the model resolvable and cached, calling
`model_record_sequence` on the empty batch raises — Python's
`max([len(s) for s in sequences])` on line 107 throws `ValueError`
before the `try` block, so the exception escapes the public boundary,
contradicting the claim that no exception ever escapes. -/
theorem c6_counterexample_empty_batch_raises :
    (model_record_sequence envW stLstm "PTB-LSTM" []).1
      = .error (.valueError "max() arg is an empty sequence") := by
  rfl

/-- C6 (amended): for every NON-EMPTY batch, given the model resolves
and its configuration is cached, `model_record_sequence` never lets an
exception escape: a `ValueError` during streaming yields `none` with the
specific "sequence length too large" diagnostic logged, any other
streaming failure yields `none` with the generic diagnostic logged, and
a successful stream yields the recorded pairs. -/
theorem c6_amended_record_sequence_no_raise (env : Env) (st : ManagerState) (name : String)
    (seqs : List (List String)) (m : Model) (st₁ : ManagerState) (config : TrainConfig)
    (hm : get_model env st name false = (.ok (some m), st₁))
    (hc : lookupS name st₁.train_configs = some config)
    (hne : seqs ≠ []) :
    (∃ r st₂, model_record_sequence env st name seqs = (.ok r, st₂)) ∧
    (env.streamOutcome name = .ok →
      (model_record_sequence env st name seqs).1 = .ok (some (seqs.map (fun s => (s, ()))))) ∧
    (env.streamOutcome name = .valueError →
      (model_record_sequence env st name seqs).1 = .ok none ∧
      (model_record_sequence env st name seqs).2.logs
        = st₁.logs ++ ["ERROR: Fail to evaluate given sequence! Sequence length too large!"]) ∧
    (env.streamOutcome name = .otherError →
      (model_record_sequence env st name seqs).1 = .ok none ∧
      (model_record_sequence env st name seqs).2.logs
        = st₁.logs ++ ["ERROR: Fail to evaluate given sequence! Unknown Reason."]) := by
  obtain ⟨s, rest, hseqs⟩ : ∃ s rest, seqs = s :: rest := by
    cases seqs with
    | nil => exact absurd rfl hne
    | cons s rest => exact ⟨s, rest, rfl⟩
  have hstride : py_max_len seqs = .ok ((rest.map List.length).foldl Nat.max s.length) := by
    rw [hseqs]
    rfl
  have hbody := record_sequence_body_spec env st₁ name seqs m config
    ((rest.map List.length).foldl Nat.max s.length) hc hstride
  rw [model_record_sequence_eq_body env st name seqs m st₁ hm]
  exact ⟨hbody.2.2.1, hbody.2.2.2.1, hbody.2.2.2.2.1, hbody.2.2.2.2.2⟩

/-- C6 witness for the amended statement: `PTB-GRU` in `envW` streams
with a `ValueError`; the one-sequence batch yields `none` and the
specific diagnostic, with no exception. -/
theorem c6_amended_record_sequence_no_raise_witness :
    (∃ r st₂, model_record_sequence envW stGru "PTB-GRU" [["a"]] = (.ok r, st₂)) ∧
    (envW.streamOutcome "PTB-GRU" = .ok →
      (model_record_sequence envW stGru "PTB-GRU" [["a"]]).1
        = .ok (some ([["a"]].map (fun s => (s, ()))))) ∧
    (envW.streamOutcome "PTB-GRU" = .valueError →
      (model_record_sequence envW stGru "PTB-GRU" [["a"]]).1 = .ok none ∧
      (model_record_sequence envW stGru "PTB-GRU" [["a"]]).2.logs
        = stGru.logs ++ ["ERROR: Fail to evaluate given sequence! Sequence length too large!"]) ∧
    (envW.streamOutcome "PTB-GRU" = .otherError →
      (model_record_sequence envW stGru "PTB-GRU" [["a"]]).1 = .ok none ∧
      (model_record_sequence envW stGru "PTB-GRU" [["a"]]).2.logs
        = stGru.logs ++ ["ERROR: Fail to evaluate given sequence! Unknown Reason."]) :=
  c6_amended_record_sequence_no_raise envW stGru "PTB-GRU" [["a"]] mW stGru tcW
    get_model_envW_stGru (by rfl) (by simp)

/-! ## C7 -/

/-- C7: for every split value outside `{train, valid, test}`,
`model_record_default` on a resolvable name raises the assertion
(propagated to the caller) and performs no streaming: `pour_data` and
`evaluate_and_record` are not invoked and the persistent recorder
receives no writes. -/
theorem c7_record_default_bad_split (env : Env) (st : ManagerState) (name dataset : String)
    (m : Model) (st₁ : ManagerState) (config : TrainConfig)
    (hm : get_model env st name false = (.ok (some m), st₁))
    (hc : lookupS name st₁.train_configs = some config)
    (hd : ¬(dataset = "test" ∨ dataset = "train" ∨ dataset = "valid")) :
    model_record_default env st name dataset
      = (.error (.assertionError "dataset should be 'train', 'valid' or 'test'"), st₁) ∧
    st₁.pourTrace = st.pourTrace ∧
    st₁.streamCalls = st.streamCalls ∧
    st₁.recorderWrites = st.recorderWrites := by
  have hbody := (record_default_body_spec env st₁ name dataset m config hc).2 hd
  have hframe := get_model_frame env st name false
  rw [hm] at hframe
  rw [model_record_default_eq_body env st name dataset m st₁ hm]
  exact ⟨hbody, hframe.1, hframe.2.1, hframe.2.2⟩

/-- C7 witness: the split `"validation"` (not one of the three canonical
names) on the cached `PTB-LSTM`. -/
theorem c7_record_default_bad_split_witness :
    model_record_default envW stLstm "PTB-LSTM" "validation"
      = (.error (.assertionError "dataset should be 'train', 'valid' or 'test'"), stLstm) ∧
    stLstm.pourTrace = stLstm.pourTrace ∧
    stLstm.streamCalls = stLstm.streamCalls ∧
    stLstm.recorderWrites = stLstm.recorderWrites :=
  c7_record_default_bad_split envW stLstm "PTB-LSTM" "validation" mW stLstm tcW
    get_model_envW_stLstm (by rfl) (by simp)

/-! ## C8 -/

/-- C8: for a resolvable name and a valid split, `model_record_default`
returns `True` exactly when the streaming evaluation completes, and
returns `False` — never raising, and never returning recorded data (its
result type carries only the boolean) — when any failure occurs during
streaming. -/
theorem c8_record_default_result (env : Env) (st : ManagerState) (name dataset : String)
    (m : Model) (st₁ : ManagerState) (config : TrainConfig)
    (hm : get_model env st name false = (.ok (some m), st₁))
    (hc : lookupS name st₁.train_configs = some config)
    (hd : dataset = "test" ∨ dataset = "train" ∨ dataset = "valid") :
    ((model_record_default env st name dataset).1 = .ok (some true) ↔
      env.streamOutcome name = .ok) ∧
    (env.streamOutcome name ≠ .ok →
      (model_record_default env st name dataset).1 = .ok (some false)) := by
  have hbody := (record_default_body_spec env st₁ name dataset m config hc).1 hd
  rw [model_record_default_eq_body env st name dataset m st₁ hm]
  constructor
  · constructor
    · intro hres
      by_contra hno
      have := hbody.2.2.2 hno
      rw [hres] at this
      simp at this
    · intro hok
      exact hbody.2.2.1 hok
  · intro hno
    exact hbody.2.2.2 hno

/-- C8 witness: on the cached `PTB-LSTM` (stream succeeds) the call
reports `true`; on the cached `PTB-GRU` (stream raises) it reports
`false`. -/
theorem c8_record_default_result_witness :
    (model_record_default envW stLstm "PTB-LSTM" "train").1 = .ok (some true) ∧
    (model_record_default envW stGru "PTB-GRU" "train").1 = .ok (some false) := by
  constructor
  · exact (c8_record_default_result envW stLstm "PTB-LSTM" "train" mW stLstm tcW
      get_model_envW_stLstm (by rfl) (by simp)).1.mpr (by rfl)
  · exact (c8_record_default_result envW stGru "PTB-GRU" "train" mW stGru tcW
      get_model_envW_stGru (by rfl) (by simp)).2 (by simp [envW])

/-! ## C9 -/

/-- C9 counterexample: on a 2-layer model with 5 projected points,
`model_state_projection` with `layer = -2` labels every point with layer
1 (the last layer) but Python's negative-index assignment
`states_num[layer] = n` puts all 5 points at position 0, not at the last
layer's position (index 1), which stays 0. -/
theorem c9_counterexample_layer_minus_two :
    (model_state_projection envW stLstm "PTB-LSTM" "state_c" (-2) "tsne").1
      = .ok (some ⟨[1, 1, 1, 1, 1], [5, 0], 5⟩) ∧
    ¬(([5, 0] : List Nat).getLast? = some 5) := by
  constructor
  · rfl
  · decide

/-- Python negative-index assignment on an in-range negative index. -/
theorem py_list_set_neg (l : List Nat) (i : Int) (v : Nat)
    (hneg : i < 0) (hrange : -(l.length : Int) ≤ i) :
    py_list_set l i v = .ok (l.set (i + l.length).toNat v) := by
  unfold py_list_set
  rw [if_pos hneg]
  rw [if_pos ⟨by omega, by omega⟩]

/-- C9 (amended): for every negative in-range layer index, the per-point
labels all equal `layer_count - 1`, but the histogram places the points
at Python index `layer` — that is, at position `layer_count + layer` —
which is the last layer's position exactly when `layer = -1`. -/
theorem c9_amended_projection_negative_layer (env : Env) (st : ManagerState)
    (name state_name : String) (layer : Int) (m : Model) (st₁ : ManagerState)
    (config : TrainConfig)
    (hm : get_model env st name false = (.ok (some m), st₁))
    (hc : lookupS name st₁.train_configs = some config)
    (hneg : layer < 0)
    (hrange : -(m.cell_list_len : Int) ≤ layer) :
    model_state_projection env st name state_name layer "tsne"
      = (.ok (some
          ⟨List.replicate (env.tsneShape config.dataset m.name state_name layer)
              ((m.cell_list_len : Int) - 1),
           (List.replicate m.cell_list_len 0).set (layer + m.cell_list_len).toNat
              (env.tsneShape config.dataset m.name state_name layer),
           env.tsneShape config.dataset m.name state_name layer⟩), st₁) ∧
    (layer = -1 →
      ((List.replicate m.cell_list_len 0).set (layer + m.cell_list_len).toNat
          (env.tsneShape config.dataset m.name state_name layer))[m.cell_list_len - 1]?
        = some (env.tsneShape config.dataset m.name state_name layer)) := by
  constructor
  · rw [model_state_projection_eq_body env st name state_name layer "tsne" m st₁ hm]
    unfold state_projection_body
    rw [hc]
    dsimp only
    rw [if_pos rfl]
    rw [py_list_set_neg (List.replicate m.cell_list_len 0) layer
      (env.tsneShape config.dataset m.name state_name layer) hneg
      (by rw [List.length_replicate]; exact hrange)]
    rw [if_pos hneg]
    rw [List.length_replicate]
  · intro hone
    subst hone
    have hcell : 1 ≤ m.cell_list_len := by omega
    have hidx : ((-1 : Int) + m.cell_list_len).toNat = m.cell_list_len - 1 := by omega
    rw [hidx]
    exact List.getElem?_set_eq_of_lt _ (by rw [List.length_replicate]; omega)

/-- C9 witness for the amended statement: `layer = -1` on the cached
2-layer `PTB-LSTM`: all labels are 1 and the histogram holds all 5
points at the last position. -/
theorem c9_amended_projection_negative_layer_witness :
    model_state_projection envW stLstm "PTB-LSTM" "state_c" (-1) "tsne"
      = (.ok (some
          ⟨List.replicate (envW.tsneShape tcW.dataset mW.name "state_c" (-1))
              ((mW.cell_list_len : Int) - 1),
           (List.replicate mW.cell_list_len 0).set ((-1 : Int) + mW.cell_list_len).toNat
              (envW.tsneShape tcW.dataset mW.name "state_c" (-1)),
           envW.tsneShape tcW.dataset mW.name "state_c" (-1)⟩), stLstm) ∧
    ((-1 : Int) = -1 →
      ((List.replicate mW.cell_list_len 0).set ((-1 : Int) + mW.cell_list_len).toNat
          (envW.tsneShape tcW.dataset mW.name "state_c" (-1)))[mW.cell_list_len - 1]?
        = some (envW.tsneShape tcW.dataset mW.name "state_c" (-1))) :=
  c9_amended_projection_negative_layer envW stLstm "PTB-LSTM" "state_c" (-1) mW stLstm tcW
    get_model_envW_stLstm (by rfl) (by norm_num) (by norm_num [mW])

/-! ## C10 -/

/-- C10: both recording entry points mutate the cached model's evaluator
stride in place and never restore it: whatever the streaming outcome,
after `model_record_sequence` the cached handle's `record_every` equals
that call's maximum sequence length, and after `model_record_default`
(valid split) it equals the configuration's `num_steps` — so a
subsequent operation on the cached handle observes the previous call's
stride rather than the construction-time value. -/
theorem c10_record_every_persists (env : Env) (st : ManagerState) (name : String) (m : Model)
    (st₁ : ManagerState) (config : TrainConfig)
    (hm : get_model env st name false = (.ok (some m), st₁))
    (hc : lookupS name st₁.train_configs = some config) :
    (∀ seqs stride, py_max_len seqs = .ok stride →
      lookupS name (model_record_sequence env st name seqs).2.models
        = some { m with record_every := stride }) ∧
    (∀ dataset, dataset = "test" ∨ dataset = "train" ∨ dataset = "valid" →
      lookupS name (model_record_default env st name dataset).2.models
        = some { m with record_every := config.num_steps }) := by
  constructor
  · intro seqs stride hstride
    rw [model_record_sequence_eq_body env st name seqs m st₁ hm]
    exact (record_sequence_body_spec env st₁ name seqs m config stride hc hstride).1
  · intro dataset hd
    rw [model_record_default_eq_body env st name dataset m st₁ hm]
    exact ((record_default_body_spec env st₁ name dataset m config hc).1 hd).1

/-- C10 witness: on the cached `PTB-GRU` (whose stream raises, so both
calls report failure) the stride still sticks: 2 after the ad-hoc
recording of `[["a"], ["b","c"]]`, and `num_steps = 35` after the
canonical recording. -/
theorem c10_record_every_persists_witness :
    lookupS "PTB-GRU"
        (model_record_sequence envW stGru "PTB-GRU" [["a"], ["b", "c"]]).2.models
      = some { mW with record_every := 2 } ∧
    lookupS "PTB-GRU" (model_record_default envW stGru "PTB-GRU" "train").2.models
      = some { mW with record_every := tcW.num_steps } := by
  have h := c10_record_every_persists envW stGru "PTB-GRU" mW stGru tcW
    get_model_envW_stGru (by rfl)
  exact ⟨h.1 [["a"], ["b", "c"]] 2 (by rfl), h.2 "train" (by simp)⟩
